import Mathlib

/-!
Verification of `labgrid/external/remote_tmpdir.py` (class `RemoteTmpdir`).

The class is glue code over two externally supplied collaborators: a shell
driver providing `run_check(cmd) -> list of output lines` and a file-transfer
driver providing `put(local, remote)` / `get(remote, localdir)`.  We embed
the class shallowly:

* collaborators and the local filesystem are an `Env` of response functions
  (collaborator objects are identified by `Nat` references, so that the
  shell and the transfer collaborator can be the same object);
* Python exceptions become `Except String`;
* every collaborator invocation is recorded in a trace of `Event`s, also on
  the invocations that fail, so that claims about which calls are made can
  be stated;
* `os.path` helpers (`isabs`, `basename`, `join`) are translated from their
  POSIX semantics, which is what the module uses on the host.
-/

/-- One collaborator invocation, as seen by the drivers. -/
inductive Event where
  | runCheck (ref : Nat) (cmd : String)
  | ftPut (ref : Nat) (localpath : String) (remotepath : String)
  | ftGet (ref : Nat) (remotepath : String) (localdir : String)
deriving DecidableEq, Repr

/-- The environment: behaviour of the collaborators and of the local
filesystem.  `runCheck ref cmd` is the result of `run_check(cmd)` on the
driver identified by `ref` (`Except.error` models a raised exception);
`ftPut` / `ftGet` model the file-transfer driver; `isfile`, `isdir` and
`listdir` model `os.path.isfile`, `os.path.isdir` and `os.listdir`
(`listdir` raises when the path is not a listable directory). -/
structure Env where
  runCheck : Nat → String → Except String (List String)
  ftPut : Nat → String → String → Except String Unit
  ftGet : Nat → String → String → Except String Unit
  isfile : String → Bool
  isdir : String → Bool
  listdir : String → Except String (List String)

/-- POSIX `os.path.isabs`: the path starts with a slash. -/
def isabs (p : String) : Bool :=
  match p.data with
  | [] => false
  | c :: _ => c = '/'

/-- POSIX `os.path.basename`: everything after the last slash. -/
def basename (p : String) : String :=
  String.mk (p.data.foldl (fun acc c => if c = '/' then [] else acc ++ [c]) [])

/-- Whether a string ends with a slash (the separator test of
`os.path.join`). -/
def endsWithSlash (a : String) : Bool :=
  match a.data.getLast? with
  | some c => c = '/'
  | none => false

/-- POSIX `os.path.join a b` (two arguments). -/
def joinPath (a b : String) : String :=
  if isabs b then b
  else if a = "" || endsWithSlash a then a ++ b
  else a ++ "/" ++ b

/-- Python `str` truthiness of an optional string argument (`None` and the
empty string are falsy). -/
def truthy : Option String → Bool
  | none => false
  | some s => s ≠ ""

/-- Whitespace characters recognised by Python `str.split` (ASCII range). -/
def pyIsSpace (c : Char) : Bool :=
  c = ' ' || c = '\t' || c = '\n' || c = '\r' || c = '\x0b' || c = '\x0c'

/-- Python `cmd.split(maxsplit=1)`: leading whitespace is skipped; if
nothing remains the result is `[]`; otherwise the first whitespace-free
token is the first element, and the rest of the string with its leading
whitespace stripped is the second element when non-empty. -/
def pysplit1 (s : String) : List String :=
  let s1 := s.data.dropWhile pyIsSpace
  if s1.isEmpty then []
  else
    let tok := s1.takeWhile (fun c => !pyIsSpace c)
    let rest := (s1.dropWhile (fun c => !pyIsSpace c)).dropWhile pyIsSpace
    if rest.isEmpty then [String.mk tok] else [String.mk tok, String.mk rest]

/-- The state of a `RemoteTmpdir` object: the fields assigned in
`__init__` (`self.path`, `self.basedir`, `self.shell`,
`self.filetransfer`).  The two driver fields hold references. -/
structure RemoteTmpdir where
  path : String
  basedir : Option String
  shell : Nat
  filetransfer : Nat
deriving DecidableEq, Repr

namespace RemoteTmpdir

/-- The message of the exception raised by `__init__` for a bad `basedir`:
`'RemoteTmpdir: {} is not a directory'.format(self.basedir)`. -/
def configErrMsg (b : String) : String :=
  "RemoteTmpdir: " ++ b ++ " is not a directory"

/-- Constructor `RemoteTmpdir.__init__(shell, basedir, filetransfer)`.  Runs
`mktemp -d` on the shell, takes the first output line plus `'/'` as the
remote path (an empty output raises `IndexError`), defaults the transfer
driver to the shell, and finally raises if `basedir` is given but is not a
directory.  Returns the constructed object or the raised error, together
with the trace of collaborator invocations made. -/
def init (env : Env) (shell : Nat) (basedir : Option String)
    (filetransfer : Option Nat) :
    Except String RemoteTmpdir × List Event :=
  match env.runCheck shell "mktemp -d" with
  | .error e => (.error e, [Event.runCheck shell "mktemp -d"])
  | .ok stdout =>
    match stdout with
    | [] => (.error "IndexError", [Event.runCheck shell "mktemp -d"])
    | line :: _ =>
      let t : RemoteTmpdir :=
        { path := line ++ "/", basedir := basedir, shell := shell
          filetransfer := filetransfer.getD shell }
      match basedir with
      | none => (.ok t, [Event.runCheck shell "mktemp -d"])
      | some b =>
        if env.isdir b then (.ok t, [Event.runCheck shell "mktemp -d"])
        else (.error (configErrMsg b), [Event.runCheck shell "mktemp -d"])

/-- The relative-path resolution at the top of `put`'s loop body:
`if not os.path.isabs(path) and self.basedir is not None:
path = os.path.join(self.basedir, path)`. -/
def resolveItem (basedir : Option String) (p : String) : String :=
  if !isabs p then
    match basedir with
    | some b => joinPath b p
    | none => p
  else p

/-- The inner loop of `put`'s directory branch: for each listed name, copy
`os.path.join(path, filename)` to `self.path + filename` when it is a
regular file, otherwise skip it.  A transfer failure propagates. -/
def putDirLoop (env : Env) (t : RemoteTmpdir) (p : String) :
    List String → Except String Unit × List Event
  | [] => (.ok (), [])
  | name :: rest =>
    let localpath := joinPath p name
    let remotepath := t.path ++ name
    if env.isfile localpath then
      match env.ftPut t.filetransfer localpath remotepath with
      | .error e => (.error e, [Event.ftPut t.filetransfer localpath remotepath])
      | .ok _ =>
        let r := putDirLoop env t p rest
        (r.1, Event.ftPut t.filetransfer localpath remotepath :: r.2)
    else putDirLoop env t p rest

/-- The body of `put`'s loop for one already-resolved path: a regular file
is copied to `self.path + os.path.basename(path)`; anything else is listed
as a directory and its regular-file entries are copied. -/
def putOneResolved (env : Env) (t : RemoteTmpdir) (p : String) :
    Except String Unit × List Event :=
  if env.isfile p then
    let remotepath := t.path ++ basename p
    (env.ftPut t.filetransfer p remotepath,
     [Event.ftPut t.filetransfer p remotepath])
  else
    match env.listdir p with
    | .error e => (.error e, [])
    | .ok names => putDirLoop env t p names

/-- The body of `put`'s loop for one item as passed by the caller. -/
def putOne (env : Env) (t : RemoteTmpdir) (p0 : String) :
    Except String Unit × List Event :=
  putOneResolved env t (resolveItem t.basedir p0)

/-- Method `RemoteTmpdir.put(*items)`. -/
def put (env : Env) (t : RemoteTmpdir) :
    List String → Except String Unit × List Event
  | [] => (.ok (), [])
  | p :: ps =>
    match putOne env t p with
    | (.error e, tr) => (.error e, tr)
    | (.ok _, tr) =>
      let r := put env t ps
      (r.1, tr ++ r.2)

/-- Method `RemoteTmpdir.get(*files, localdir=None)`.  For each file the assert
`localdir or self.basedir` is checked (Python truthiness), then the
transfer driver downloads `self.path + str(path)` to
`localdir or self.basedir`. -/
def get (env : Env) (t : RemoteTmpdir) (localdir : Option String) :
    List String → Except String Unit × List Event
  | [] => (.ok (), [])
  | f :: fs =>
    let remotepath := t.path ++ f
    if truthy localdir || truthy t.basedir then
      let dest := if truthy localdir then localdir.getD "" else t.basedir.getD ""
      match env.ftGet t.filetransfer remotepath dest with
      | .error e => (.error e, [Event.ftGet t.filetransfer remotepath dest])
      | .ok _ =>
        let r := get env t localdir fs
        (r.1, Event.ftGet t.filetransfer remotepath dest :: r.2)
    else (.error "AssertionError", [])

/-- Method `RemoteTmpdir.cleanup()`.  Runs the recursive remove command on the shell; the
`try/except Exception` makes the method total: it returns `true` on
success and `false` on any raised error, never propagating one. -/
def cleanup (env : Env) (t : RemoteTmpdir) : Bool × List Event :=
  let c := "rm -r " ++ t.path
  (match env.runCheck t.shell c with
   | .ok _ => true
   | .error _ => false,
   [Event.runCheck t.shell c])

/-- Method `RemoteTmpdir.run_check(cmd)`.  Splits `cmd` with
`cmd.split(maxsplit=1)`, takes `cmdv[0]` as the local path (raising
`IndexError` when the split is empty), uploads it via `put`, and runs
`' '.join(cmdv)` with `cmdv[0]` replaced by
`self.path + os.path.basename(cmdv[0])` on the shell, returning the
shell's result. -/
def run_check (env : Env) (t : RemoteTmpdir) (cmd : String) :
    Except String (List String) × List Event :=
  match pysplit1 cmd with
  | [] => (.error "IndexError", [])
  | localpath :: rest =>
    let remotepath := t.path ++ basename localpath
    let newCmd := String.intercalate " " (remotepath :: rest)
    match put env t [localpath] with
    | (.error e, tr) => (.error e, tr)
    | (.ok _, tr) =>
      (env.runCheck t.shell newCmd, tr ++ [Event.runCheck t.shell newCmd])

/-- Explicit-state version of `put`: the method body assigns no attribute
of `self`, so the post-state is the receiver itself. -/
def putS (env : Env) (t : RemoteTmpdir) (items : List String) :
    (Except String Unit × List Event) × RemoteTmpdir :=
  (put env t items, t)

/-- Explicit-state version of `get`. -/
def getS (env : Env) (t : RemoteTmpdir) (localdir : Option String)
    (files : List String) :
    (Except String Unit × List Event) × RemoteTmpdir :=
  (get env t localdir files, t)

/-- Explicit-state version of `cleanup`. -/
def cleanupS (env : Env) (t : RemoteTmpdir) :
    (Bool × List Event) × RemoteTmpdir :=
  (cleanup env t, t)

/-- Explicit-state version of `run_check`. -/
def run_checkS (env : Env) (t : RemoteTmpdir) (cmd : String) :
    (Except String (List String) × List Event) × RemoteTmpdir :=
  (run_check env t cmd, t)

end RemoteTmpdir

/-! ## A concrete environment for witnesses and counterexamples -/

/-- A concrete environment: the shell answers the directory-creation
command with two output lines, transfers always succeed, the local
filesystem has a regular file at the path named by the spec example, a
base directory, and one listable directory with two regular files and a
subdirectory. -/
def envW : Env :=
  { runCheck := fun _ c =>
      if c = "mktemp -d" then .ok ["/tmp/tmpX", "junk"] else .ok ["ran:" ++ c]
    ftPut := fun _ _ _ => .ok ()
    ftGet := fun _ _ _ => .ok ()
    isfile := fun p =>
      p = "local/script" || p = "/base/rel.txt" || p = "/d/a.txt" || p = "/d/b.txt"
    isdir := fun b => b = "/base"
    listdir := fun p =>
      if p = "/d" then .ok ["a.txt", "sub", "b.txt"]
      else .error "NotADirectoryError" }

/-- The staging area produced by a successful construction against `envW`
with no base directory. -/
def tW : RemoteTmpdir :=
  { path := "/tmp/tmpX/", basedir := none, shell := 0, filetransfer := 0 }

/-! ## Helper lemmas -/

namespace RemoteTmpdir

/-- A `put` of a single item is exactly the loop body for that item. -/
theorem put_singleton (env : Env) (t : RemoteTmpdir) (p : String) :
    put env t [p] = putOne env t p := by
  rcases h : putOne env t p with ⟨r, tr⟩
  cases r with
  | error e => simp [put, h]
  | ok u => cases u; simp [put, h]

/-- When every transfer succeeds, the directory loop succeeds and uploads
exactly the regular-file entries, in order. -/
theorem putDirLoop_all_ok (env : Env) (t : RemoteTmpdir) (p : String)
    (hft : ∀ l r, env.ftPut t.filetransfer l r = .ok ()) :
    ∀ names : List String,
      putDirLoop env t p names
        = (.ok (),
           (names.filter fun n => env.isfile (joinPath p n)).map
             fun n => Event.ftPut t.filetransfer (joinPath p n) (t.path ++ n))
  | [] => by simp [putDirLoop]
  | name :: rest => by
    by_cases hf : env.isfile (joinPath p name)
    · simp [putDirLoop, hf, hft, putDirLoop_all_ok env t p hft rest]
    · simp [putDirLoop, hf, putDirLoop_all_ok env t p hft rest]

end RemoteTmpdir

/-- Appending a slash leaves a non-empty string. -/
theorem append_slash_ne_empty (s : String) : s ++ "/" ≠ "" := by
  intro h
  have h2 := congrArg String.length h
  simp [String.length_append] at h2
  exact absurd h2.2 (by decide)

/-- A recursive-remove command line is never the directory-creation
command line. -/
theorem rm_ne_mktemp (c : String) : "rm -r " ++ c ≠ "mktemp -d" := by
  intro h
  have h2 : 'r' :: 'm' :: ' ' :: '-' :: 'r' :: ' ' :: c.data
      = 'm' :: 'k' :: 't' :: 'e' :: 'm' :: 'p' :: ' ' :: '-' :: 'd' :: [] := by
    have h3 := congrArg String.data h
    rw [String.data_append] at h3
    exact h3
  injection h2 with h4 _
  exact absurd h4 (by decide)

/-! ## Claim theorems -/

/-- C1: cleanup invokes the shell with a recursive remove of the remote
directory; it returns true exactly when that command succeeds and false
exactly when it raises, absorbing the error (the method is total in the
embedding, so it never raises, and a repeated call behaves the same way:
its failure simply yields false). -/
theorem C1_cleanup_behavior (env : Env) (t : RemoteTmpdir) :
    (RemoteTmpdir.cleanup env t).2
      = [Event.runCheck t.shell ("rm -r " ++ t.path)] ∧
    ((RemoteTmpdir.cleanup env t).1 = true
      ↔ ∃ out, env.runCheck t.shell ("rm -r " ++ t.path) = .ok out) ∧
    ((RemoteTmpdir.cleanup env t).1 = false
      ↔ ∃ e, env.runCheck t.shell ("rm -r " ++ t.path) = .error e) ∧
    ((RemoteTmpdir.cleanup env t).1 = true ∨
     (RemoteTmpdir.cleanup env t).1 = false) ∧
    (RemoteTmpdir.cleanup env (RemoteTmpdir.cleanupS env t).2).1
      = (RemoteTmpdir.cleanup env t).1 := by
  rcases hr : env.runCheck t.shell ("rm -r " ++ t.path) with e | out <;>
    simp [RemoteTmpdir.cleanup, RemoteTmpdir.cleanupS, hr]

/-- C3: a put of a single path whose resolution is a regular file performs
exactly one transfer, of that file to the remote path formed from the
remote directory and the file's base name; no other remote name is
involved. -/
theorem C3_put_single_file (env : Env) (t : RemoteTmpdir) (p : String)
    (h : env.isfile (RemoteTmpdir.resolveItem t.basedir p) = true) :
    (RemoteTmpdir.put env t [p]).2
      = [Event.ftPut t.filetransfer (RemoteTmpdir.resolveItem t.basedir p)
           (t.path ++ basename (RemoteTmpdir.resolveItem t.basedir p))] ∧
    (RemoteTmpdir.put env t [p]).1
      = env.ftPut t.filetransfer (RemoteTmpdir.resolveItem t.basedir p)
          (t.path ++ basename (RemoteTmpdir.resolveItem t.basedir p)) := by
  rw [RemoteTmpdir.put_singleton]
  simp [RemoteTmpdir.putOne, RemoteTmpdir.putOneResolved, h]

/-- C3 witness: put of the single file of the spec example uploads it once
under its base name. -/
theorem C3_put_single_file_witness :
    (RemoteTmpdir.put envW tW ["local/script"]).2
      = [Event.ftPut tW.filetransfer
           (RemoteTmpdir.resolveItem tW.basedir "local/script")
           (tW.path ++ basename (RemoteTmpdir.resolveItem tW.basedir "local/script"))] ∧
    (RemoteTmpdir.put envW tW ["local/script"]).1
      = envW.ftPut tW.filetransfer
          (RemoteTmpdir.resolveItem tW.basedir "local/script")
          (tW.path ++ basename (RemoteTmpdir.resolveItem tW.basedir "local/script")) :=
  C3_put_single_file envW tW "local/script" (by rfl)

/-- C4: a put of a single path whose resolution is not a regular file
lists that path as a directory; when the transfer collaborator succeeds,
exactly the listed entries that are regular files are uploaded, each to
the remote directory under its own name, and entries that are not regular
files (such as subdirectories) are skipped with no recursion. -/
theorem C4_put_directory (env : Env) (t : RemoteTmpdir) (p : String)
    (names : List String)
    (hnf : env.isfile (RemoteTmpdir.resolveItem t.basedir p) = false)
    (hls : env.listdir (RemoteTmpdir.resolveItem t.basedir p) = .ok names)
    (hft : ∀ l r, env.ftPut t.filetransfer l r = .ok ()) :
    RemoteTmpdir.put env t [p]
      = (.ok (),
         (names.filter fun n =>
            env.isfile (joinPath (RemoteTmpdir.resolveItem t.basedir p) n)).map
           fun n =>
             Event.ftPut t.filetransfer
               (joinPath (RemoteTmpdir.resolveItem t.basedir p) n)
               (t.path ++ n)) := by
  rw [RemoteTmpdir.put_singleton]
  simp [RemoteTmpdir.putOne, RemoteTmpdir.putOneResolved, hnf, hls,
    RemoteTmpdir.putDirLoop_all_ok env t _ hft names]

/-- C4 witness: put of the directory holding two regular files and a
subdirectory uploads exactly the two files, in listing order. -/
theorem C4_put_directory_witness :
    RemoteTmpdir.put envW tW ["/d"]
      = (.ok (),
         ((["a.txt", "sub", "b.txt"] : List String).filter fun n =>
            envW.isfile (joinPath (RemoteTmpdir.resolveItem tW.basedir "/d") n)).map
           fun n =>
             Event.ftPut tW.filetransfer
               (joinPath (RemoteTmpdir.resolveItem tW.basedir "/d") n)
               (tW.path ++ n)) :=
  C4_put_directory envW tW "/d" ["a.txt", "sub", "b.txt"] (by rfl) (by rfl)
    (fun _ _ => rfl)

/-- C9: no operation assigns any attribute of the object: after put, get,
cleanup or run_check the post-state is the receiver itself, so remotePath,
localBaseDir and the two collaborator references are unchanged; in
particular cleanup leaves the path field in place even when it succeeds. -/
theorem C9_frame (env : Env) (t : RemoteTmpdir) (items files : List String)
    (localdir : Option String) (cmd : String) :
    (RemoteTmpdir.putS env t items).2 = t ∧
    (RemoteTmpdir.getS env t localdir files).2 = t ∧
    (RemoteTmpdir.cleanupS env t).2 = t ∧
    (RemoteTmpdir.run_checkS env t cmd).2 = t ∧
    (RemoteTmpdir.cleanupS env t).2.path = t.path :=
  ⟨rfl, rfl, rfl, rfl, rfl⟩

/-- C2 counterexample: at the command line consisting of the empty string,
run_check raises an IndexError before any collaborator call: nothing is
split off, nothing is uploaded and the shell is never invoked, contrary to
the claim that every command line is split and handled. -/
theorem C2_counterexample :
    (RemoteTmpdir.run_check envW tW "").1 = .error "IndexError" ∧
    (RemoteTmpdir.run_check envW tW "").2 = [] :=
  ⟨rfl, rfl⟩

/-- C2 amended: for every command line whose whitespace split (Python
split with maxsplit one) is non-empty, run_check uploads the leading
token via put and, when that upload succeeds, invokes the shell with the
remote path (remote directory plus base name of the leading token)
followed by the split remainder, returning the shell's result. -/
theorem C2_run_check_amended (env : Env) (t : RemoteTmpdir) (cmd tok : String)
    (rest : List String) (h : pysplit1 cmd = tok :: rest)
    (hput : (RemoteTmpdir.put env t [tok]).1 = .ok ()) :
    (RemoteTmpdir.run_check env t cmd).1
      = env.runCheck t.shell
          (String.intercalate " " ((t.path ++ basename tok) :: rest)) ∧
    (RemoteTmpdir.run_check env t cmd).2
      = (RemoteTmpdir.put env t [tok]).2
        ++ [Event.runCheck t.shell
              (String.intercalate " " ((t.path ++ basename tok) :: rest))] := by
  rcases hp : RemoteTmpdir.put env t [tok] with ⟨r, tr⟩
  rw [hp] at hput
  simp at hput
  subst hput
  simp [RemoteTmpdir.run_check, h, hp]

/-- C2 witness: the spec example command line is split, its script
uploaded, and the shell invoked with the remote path plus the flag. -/
theorem C2_run_check_amended_witness :
    (RemoteTmpdir.run_check envW tW "local/script --flag").1
      = envW.runCheck tW.shell
          (String.intercalate " " ((tW.path ++ basename "local/script") :: ["--flag"])) ∧
    (RemoteTmpdir.run_check envW tW "local/script --flag").2
      = (RemoteTmpdir.put envW tW ["local/script"]).2
        ++ [Event.runCheck tW.shell
              (String.intercalate " " ((tW.path ++ basename "local/script") :: ["--flag"]))] :=
  C2_run_check_amended envW tW "local/script --flag" "local/script" ["--flag"]
    (by rfl) (by rfl)

/-- C5 counterexample: a get with no destination argument and no
configured base directory succeeds (and transfers nothing) when the list
of requested files is empty, because the assert sits inside the loop, so
the claim fails for the zero-file call. -/
theorem C5_counterexample :
    tW.basedir = none ∧
    RemoteTmpdir.get envW tW none [] = (.ok (), []) :=
  ⟨rfl, rfl⟩

/-- C5 amended: for every call to get with at least one requested file,
no destination argument and no base directory set, the call fails with
the assertion error before any transfer is attempted; the check is made
per call inside the loop, not at construction. -/
theorem C5_get_amended (env : Env) (t : RemoteTmpdir) (f : String)
    (fs : List String) (h : t.basedir = none) :
    RemoteTmpdir.get env t none (f :: fs) = (.error "AssertionError", []) := by
  simp [RemoteTmpdir.get, truthy, h]

/-- C5 witness: requesting one file with no destination and no base
directory fails with the assertion error and performs no transfer. -/
theorem C5_get_amended_witness :
    RemoteTmpdir.get envW tW none ["out.log"] = (.error "AssertionError", []) :=
  C5_get_amended envW tW "out.log" [] rfl

/-- C6: on every successful construction the stored remote path is the
first output line of the directory-creation command with a trailing
separator appended, hence non-empty and slash-terminated. -/
theorem C6_remote_path_shape (env : Env) (shell : Nat)
    (basedir : Option String) (ft : Option Nat) (t : RemoteTmpdir)
    (tr : List Event)
    (h : RemoteTmpdir.init env shell basedir ft = (.ok t, tr)) :
    (∃ line rest, env.runCheck shell "mktemp -d" = .ok (line :: rest) ∧
        t.path = line ++ "/") ∧
    t.path ≠ "" ∧ ∃ pre, t.path = pre ++ "/" := by
  have key : ∃ line rest, env.runCheck shell "mktemp -d" = .ok (line :: rest) ∧
      t.path = line ++ "/" := by
    rcases hr : env.runCheck shell "mktemp -d" with e | stdout <;>
      simp [RemoteTmpdir.init, hr] at h
    rcases stdout with _ | ⟨line, out⟩
    · simp at h
    · rcases basedir with _ | b
      · simp at h
        exact ⟨line, out, rfl, by rw [← h.1]⟩
      · cases hd : env.isdir b <;> simp [hd] at h
        exact ⟨line, out, rfl, by rw [← h.1]⟩
  rcases key with ⟨line, rest, hr, hp⟩
  exact ⟨⟨line, rest, hr, hp⟩, hp ▸ append_slash_ne_empty line, line, hp⟩

/-- C6 witness: the construction against the concrete environment yields
the first output line with a trailing separator. -/
theorem C6_remote_path_shape_witness :
    (∃ line rest, envW.runCheck 0 "mktemp -d" = .ok (line :: rest) ∧
        tW.path = line ++ "/") ∧
    tW.path ≠ "" ∧ ∃ pre, tW.path = pre ++ "/" :=
  C6_remote_path_shape envW 0 none none tW [Event.runCheck 0 "mktemp -d"] (by rfl)

/-- C7: once the directory-creation command has produced an output line,
construction with a supplied base directory that is not a directory fails
with the configuration error, while construction with a base directory
that is a directory, or with none supplied, succeeds without this
error. -/
theorem C7_basedir_check (env : Env) (shell : Nat) (ft : Option Nat)
    (line : String) (out : List String)
    (h : env.runCheck shell "mktemp -d" = .ok (line :: out)) :
    (∀ b, env.isdir b = false →
        (RemoteTmpdir.init env shell (some b) ft).1
          = .error (RemoteTmpdir.configErrMsg b)) ∧
    (∀ b, env.isdir b = true →
        (RemoteTmpdir.init env shell (some b) ft).1
          = .ok { path := line ++ "/", basedir := some b, shell := shell,
                  filetransfer := ft.getD shell }) ∧
    (RemoteTmpdir.init env shell none ft).1
      = .ok { path := line ++ "/", basedir := none, shell := shell,
              filetransfer := ft.getD shell } := by
  refine ⟨fun b hb => ?_, fun b hb => ?_, ?_⟩ <;>
    simp [RemoteTmpdir.init, h, *]

/-- C7 witness: against the concrete environment, a missing base
directory fails construction with the configuration error and an existing
one succeeds. -/
theorem C7_basedir_check_witness :
    (RemoteTmpdir.init envW 0 (some "/nope") none).1
      = .error (RemoteTmpdir.configErrMsg "/nope") ∧
    (RemoteTmpdir.init envW 0 (some "/base") none).1
      = .ok { path := "/tmp/tmpX" ++ "/", basedir := some "/base", shell := 0,
              filetransfer := (none : Option Nat).getD 0 } :=
  ⟨(C7_basedir_check envW 0 none "/tmp/tmpX" ["junk"] rfl).1 "/nope" rfl,
   (C7_basedir_check envW 0 none "/tmp/tmpX" ["junk"] rfl).2.1 "/base" rfl⟩

/-- C8: the path resolution of put joins a relative path onto the base
directory when one is set, keeps a relative path as-is when none is set,
never joins the base directory onto an absolute path, and put's loop body
acts on exactly the resolved path. -/
theorem C8_path_resolution (env : Env) (t : RemoteTmpdir) (p b : String) :
    (isabs p = false → RemoteTmpdir.resolveItem (some b) p = joinPath b p) ∧
    (isabs p = false → RemoteTmpdir.resolveItem none p = p) ∧
    (isabs p = true → ∀ bd, RemoteTmpdir.resolveItem bd p = p) ∧
    RemoteTmpdir.putOne env t p
      = RemoteTmpdir.putOneResolved env t (RemoteTmpdir.resolveItem t.basedir p) := by
  refine ⟨fun hp => ?_, fun hp => ?_, fun hp bd => ?_, rfl⟩
  · simp [RemoteTmpdir.resolveItem, hp]
  · simp [RemoteTmpdir.resolveItem, hp]
  · cases bd <;> simp [RemoteTmpdir.resolveItem, hp]

/-- C8 witness: a relative path is joined onto a set base directory, kept
as-is without one, and an absolute path is never joined. -/
theorem C8_path_resolution_witness :
    RemoteTmpdir.resolveItem (some "/base") "rel.txt" = joinPath "/base" "rel.txt" ∧
    RemoteTmpdir.resolveItem none "rel.txt" = "rel.txt" ∧
    RemoteTmpdir.resolveItem (some "/base") "/abs.txt" = "/abs.txt" :=
  ⟨(C8_path_resolution envW tW "rel.txt" "/base").1 rfl,
   (C8_path_resolution envW tW "rel.txt" "/base").2.1 rfl,
   (C8_path_resolution envW tW "/abs.txt" "/base").2.2.1 rfl (some "/base")⟩

/-- C10: when the directory-creation command has succeeded but the
supplied base directory is not a directory, construction fails with the
configuration error and its trace is exactly the directory-creation
invocation: the remote directory was already created, and no removal
command ever appears in the trace of the failed construction. -/
theorem C10_nonatomic_construction (env : Env) (shell : Nat) (ft : Option Nat)
    (b line : String) (out : List String)
    (h : env.runCheck shell "mktemp -d" = .ok (line :: out))
    (hb : env.isdir b = false) :
    RemoteTmpdir.init env shell (some b) ft
      = (.error (RemoteTmpdir.configErrMsg b),
         [Event.runCheck shell "mktemp -d"]) ∧
    ∀ c, Event.runCheck shell ("rm -r " ++ c) ∉
        (RemoteTmpdir.init env shell (some b) ft).2 := by
  have h1 : RemoteTmpdir.init env shell (some b) ft
      = (.error (RemoteTmpdir.configErrMsg b),
         [Event.runCheck shell "mktemp -d"]) := by
    simp [RemoteTmpdir.init, h, hb]
  refine ⟨h1, fun c hc => ?_⟩
  rw [h1] at hc
  simp at hc
  exact rm_ne_mktemp c hc

/-- C10 witness: the failed construction against the concrete environment
leaves exactly the creation command in the trace, and in particular no
removal of the directory it created. -/
theorem C10_nonatomic_construction_witness :
    RemoteTmpdir.init envW 0 (some "/nope") none
      = (.error (RemoteTmpdir.configErrMsg "/nope"),
         [Event.runCheck 0 "mktemp -d"]) ∧
    Event.runCheck 0 ("rm -r " ++ "/tmp/tmpX/") ∉
        (RemoteTmpdir.init envW 0 (some "/nope") none).2 :=
  ⟨(C10_nonatomic_construction envW 0 none "/nope" "/tmp/tmpX" ["junk"] rfl rfl).1,
   (C10_nonatomic_construction envW 0 none "/nope" "/tmp/tmpX" ["junk"] rfl rfl).2
     "/tmp/tmpX/"⟩
